import Mathlib

/-!
# Verification of the FLIR bin-to-TIFF extractor core

Shallow embedding of `src/flir2tif/terra_flir2tif.py` (the `FlirBin2JpgTiff`
extractor).  The raw-frame load path embeds the numpy pipeline
`numpy.fromfile(bin_file, numpy.dtype(<u2)).reshape([480, 640]).astype(float)`
followed by `numpy.rot90(raw_data, 3)` (lines 137-138 and 153-155 of the
source).  Raw bytes are modelled as `List Nat` (each entry one byte), raw
counts and floating-point values as `ℚ` (every 16-bit count is exactly
representable in the source's float64, so widening is the exact cast).
Fallible steps return `Except`.
-/

namespace Flir2Tif

/-- Error raised by the raw-frame load step when the decoded element count
does not fit the expected `[480, 640]` reshape (numpy raises `ValueError`;
the spec names it `FormatError`). -/
inductive LoadError where
  | FormatError
deriving DecidableEq, Repr

/-- Errors of the radiometric conversion step, as named by the spec. -/
inductive ConvError where
  | MissingParameterError
  | InvalidGeometryError
deriving DecidableEq, Repr

/-- `numpy.fromfile(bin_file, numpy.dtype(<u2))`: interpret a byte sequence
as little-endian unsigned 16-bit integers.  `numpy.fromfile` reads as many
complete 2-byte elements as fit and silently drops a trailing lone byte. -/
def decodeU16LE : List Nat → List Nat
  | lo :: hi :: rest => (lo + 256 * hi) :: decodeU16LE rest
  | _ => []

/-- `.reshape([h, w])`: cut a flat row-major list into `h` rows of `w`
elements (meaningful when the flat length is exactly `h * w`, which the
caller checks, mirroring numpy's reshape error). -/
def reshapeRows : Nat → Nat → List α → List (List α)
  | 0, _, _ => []
  | h + 1, w, xs => xs.take w :: reshapeRows h w (xs.drop w)

/-- Grid width: length of the first row (0 for an empty grid). -/
def gridW (m : List (List ℚ)) : Nat := (m.getD 0 []).length

/-- One counterclockwise quarter turn, `numpy.rot90(m, 1)`: for an `h × w`
grid the result is `w × h` with entry `(i, j)` equal to `m[j][w-1-i]`. -/
def rot90ccw (m : List (List ℚ)) : List (List ℚ) :=
  (List.range (gridW m)).map fun i =>
    (List.range m.length).map fun j => (m.getD j []).getD (gridW m - 1 - i) 0

/-- `numpy.rot90(m, 3)`: three counterclockwise quarter turns (equivalently
one clockwise quarter turn, a 270 degree rotation). -/
def rot270 (m : List (List ℚ)) : List (List ℚ) := rot90ccw (rot90ccw (rot90ccw m))

/-- The grid of line 137 before rotation:
`numpy.fromfile(bin_file, numpy.dtype(<u2)).reshape([h, w]).astype(float)`,
for a buffer already decoded to the element count `h * w`. -/
def preRotationGrid (h w : Nat) (buf : List Nat) : List (List ℚ) :=
  (reshapeRows h w (decodeU16LE buf)).map (List.map (fun n : Nat => (n : ℚ)))

/-- The raw-frame load step of `process_message` for configurable sensor
dimensions: decode little-endian u16, reshape to `h` rows by `w` columns
(numpy's reshape raises unless the decoded element count is exactly
`h * w`), widen to float, rotate 270 degrees. -/
def loadRawFrame (h w : Nat) (buf : List Nat) : Except LoadError (List (List ℚ)) :=
  if (decodeU16LE buf).length = h * w then
    Except.ok (rot270 (preRotationGrid h w buf))
  else
    Except.error LoadError.FormatError

/-- The raw-frame load step exactly as hard-coded in the source
(`reshape([480, 640])`, lines 137-138). -/
def load_raw_frame (buf : List Nat) : Except LoadError (List (List ℚ)) :=
  loadRawFrame 480 640 buf

/-- Total element count of a grid. -/
def elemCount (m : List (List ℚ)) : Nat := (m.map List.length).sum

end Flir2Tif

namespace Flir2Tif

/-- A grid is rectangular with `h` rows of `w` elements each. -/
def IsRect (h w : Nat) (m : List (List ℚ)) : Prop :=
  m.length = h ∧ ∀ row ∈ m, row.length = w

theorem decodeU16LE_length : ∀ xs : List Nat, (decodeU16LE xs).length = xs.length / 2
  | [] => by simp [decodeU16LE]
  | [_] => by simp [decodeU16LE]
  | _ :: _ :: rest => by
    simp only [decodeU16LE, List.length_cons, decodeU16LE_length rest]
    omega

theorem decodeU16LE_lt : ∀ xs : List Nat, (∀ b ∈ xs, b < 256) →
    ∀ c ∈ decodeU16LE xs, c < 65536
  | [], _ => by simp [decodeU16LE]
  | [a], _ => by simp [decodeU16LE]
  | a :: b :: rest, hb => by
    intro c hc
    simp only [decodeU16LE, List.mem_cons] at hc
    rcases hc with hc | hc
    · have ha : a < 256 := hb a (by simp)
      have hb2 : b < 256 := hb b (by simp)
      omega
    · exact decodeU16LE_lt rest (fun x hx => hb x (by simp [hx])) c hc

theorem getD_mem {α : Type} {m : List α} {j : Nat} (d : α) (hj : j < m.length) :
    m.getD j d ∈ m := by
  rw [List.getD_eq_getElem _ _ hj]
  exact List.getElem_mem hj

theorem gridW_eq {h w : Nat} {m : List (List ℚ)} (hm : IsRect h w m) (hh : 0 < h) :
    gridW m = w := by
  have : m.getD 0 [] ∈ m := getD_mem [] (by rw [hm.1]; exact hh)
  exact hm.2 _ this

theorem rot90ccw_rect {h w : Nat} {m : List (List ℚ)} (hm : IsRect h w m) (hh : 0 < h) :
    IsRect w h (rot90ccw m) := by
  have hw : gridW m = w := gridW_eq hm hh
  constructor
  · simp [rot90ccw, hw]
  · intro row hrow
    simp only [rot90ccw, hw, List.mem_map] at hrow
    obtain ⟨i, _, rfl⟩ := hrow
    simp [hm.1]

theorem rot90ccw_getD {h w : Nat} {m : List (List ℚ)} (hm : IsRect h w m) (hh : 0 < h)
    {i j : Nat} (hi : i < w) (hj : j < h) :
    ((rot90ccw m).getD i []).getD j 0 = (m.getD j []).getD (w - 1 - i) 0 := by
  have hw : gridW m = w := gridW_eq hm hh
  have h1 : ((rot90ccw m).getD i []) =
      (List.range m.length).map fun j => (m.getD j []).getD (gridW m - 1 - i) 0 := by
    rw [rot90ccw, List.getD_eq_getElem _ _ (by simp [hw, hi])]
    simp
  rw [h1, List.getD_eq_getElem _ _ (by simp [hm.1, hj])]
  simp [hw]

theorem reshapeRows_length : ∀ (h w : Nat) (xs : List α), (reshapeRows h w xs).length = h
  | 0, _, _ => rfl
  | h + 1, w, xs => by simp [reshapeRows, reshapeRows_length h w (xs.drop w)]

theorem getD_drop (xs : List α) (n k : Nat) (d : α) :
    (xs.drop n).getD k d = xs.getD (n + k) d := by
  simp [List.getD_eq_getD_get?, List.getElem?_drop]

theorem reshapeRows_rows : ∀ (h w : Nat) (xs : List α), xs.length = h * w →
    ∀ row ∈ reshapeRows h w xs, row.length = w
  | 0, _, _, _ => by simp [reshapeRows]
  | h + 1, w, xs, hlen => by
    intro row hrow
    simp only [reshapeRows, List.mem_cons] at hrow
    rcases hrow with rfl | hrow
    · rw [List.length_take]
      have : w ≤ xs.length := by
        rw [hlen]; exact Nat.le_mul_of_pos_left w (by omega)
      omega
    · exact reshapeRows_rows h w (xs.drop w)
        (by rw [List.length_drop, hlen, Nat.succ_mul]; omega) row hrow

theorem reshapeRows_getD : ∀ (h w : Nat) (xs : List α) (d : α), xs.length = h * w →
    ∀ j c, j < h → c < w →
    ((reshapeRows h w xs).getD j []).getD c d = xs.getD (j * w + c) d
  | 0, _, _, _, _ => by intro j c hj _; omega
  | h + 1, w, xs, d, hlen => by
    intro j c hj hc
    match j with
    | 0 =>
      simp only [reshapeRows, List.getD_cons_zero, Nat.zero_mul, Nat.zero_add]
      have hcx : c < xs.length := by
        rw [hlen]
        calc c < w := hc
          _ ≤ (h + 1) * w := Nat.le_mul_of_pos_left w (by omega)
      rw [List.getD_eq_getElem _ _ (by rw [List.length_take]; omega),
        List.getElem_take, List.getD_eq_getElem _ _ hcx]
    | j + 1 =>
      simp only [reshapeRows, List.getD_cons_succ]
      rw [reshapeRows_getD h w (xs.drop w) d
        (by rw [List.length_drop, hlen, Nat.succ_mul]; omega) j c (by omega) hc]
      rw [getD_drop]
      congr 1
      ring

theorem preRotationGrid_rect {h w : Nat} {buf : List Nat}
    (hlen : (decodeU16LE buf).length = h * w) :
    IsRect h w (preRotationGrid h w buf) := by
  constructor
  · simp [preRotationGrid, reshapeRows_length]
  · intro row hrow
    simp only [preRotationGrid, List.mem_map] at hrow
    obtain ⟨r, hr, rfl⟩ := hrow
    simp [reshapeRows_rows h w _ hlen r hr]

theorem preRotationGrid_getD {h w : Nat} {buf : List Nat}
    (hlen : (decodeU16LE buf).length = h * w) {j c : Nat} (hj : j < h) (hc : c < w) :
    ((preRotationGrid h w buf).getD j []).getD c 0
      = ((decodeU16LE buf).getD (j * w + c) 0 : ℚ) := by
  have hrl : (reshapeRows h w (decodeU16LE buf)).length = h := reshapeRows_length h w _
  have hjr : j < (reshapeRows h w (decodeU16LE buf)).length := by omega
  have hrow : (reshapeRows h w (decodeU16LE buf))[j].length = w :=
    reshapeRows_rows h w _ hlen _ (List.getElem_mem hjr)
  have hkey := reshapeRows_getD h w (decodeU16LE buf) 0 hlen j c hj hc
  rw [List.getD_eq_getElem _ _ hjr] at hkey
  rw [List.getD_eq_getElem _ _ (by omega : c < _)] at hkey
  have h1 : (List.map (List.map fun n : Nat => (n : ℚ)) (reshapeRows h w (decodeU16LE buf))).getD j []
      = List.map (fun n : Nat => (n : ℚ)) ((reshapeRows h w (decodeU16LE buf))[j]) := by
    rw [List.getD_eq_getElem _ _ (by simpa using hjr), List.getElem_map]
  unfold preRotationGrid
  rw [h1, List.getD_eq_getElem _ _ (by simp [hrow, hc]), List.getElem_map, hkey]

theorem rot270_rect {h w : Nat} {m : List (List ℚ)} (hm : IsRect h w m)
    (hh : 0 < h) (hw : 0 < w) : IsRect w h (rot270 m) :=
  rot90ccw_rect (rot90ccw_rect (rot90ccw_rect hm hh) hw) hh

theorem rot270_getD {h w : Nat} {m : List (List ℚ)} (hm : IsRect h w m)
    (hh : 0 < h) (hw : 0 < w) {i j : Nat} (hi : i < w) (hj : j < h) :
    ((rot270 m).getD i []).getD j 0 = (m.getD (h - 1 - j) []).getD i 0 := by
  have hA : IsRect w h (rot90ccw m) := rot90ccw_rect hm hh
  have hB : IsRect h w (rot90ccw (rot90ccw m)) := rot90ccw_rect hA hw
  unfold rot270
  rw [rot90ccw_getD hB hh hi hj,
    rot90ccw_getD hA hw hj (by omega : w - 1 - i < w),
    rot90ccw_getD hm hh (by omega : w - 1 - i < w) (by omega : h - 1 - j < h)]
  congr 1
  omega

theorem grid_ext {h w : Nat} {m n : List (List ℚ)} (hm : IsRect h w m) (hn : IsRect h w n)
    (he : ∀ i j, i < h → j < w →
      (m.getD i []).getD j 0 = (n.getD i []).getD j 0) : m = n := by
  apply List.ext_getElem (by rw [hm.1, hn.1])
  intro i h1 h2
  apply List.ext_getElem
  · rw [hm.2 _ (List.getElem_mem h1), hn.2 _ (List.getElem_mem h2)]
  · intro j hj1 hj2
    have hi : i < h := by rw [← hm.1]; exact h1
    have hjw : j < w := by rw [← hm.2 _ (List.getElem_mem h1)]; exact hj1
    have he2 := he i j hi hjw
    rwa [List.getD_eq_getElem _ _ h1, List.getD_eq_getElem _ _ hj1,
      List.getD_eq_getElem _ _ h2, List.getD_eq_getElem _ _ hj2] at he2

theorem rot90ccw_rot270 {h w : Nat} {m : List (List ℚ)} (hm : IsRect h w m)
    (hh : 0 < h) (hw : 0 < w) : rot90ccw (rot270 m) = m := by
  have hC : IsRect w h (rot270 m) := rot270_rect hm hh hw
  have hD : IsRect h w (rot90ccw (rot270 m)) := rot90ccw_rect hC hw
  apply grid_ext hD hm
  intro i j hi hj
  rw [rot90ccw_getD hC hw hi hj,
    rot270_getD hm hh hw hj (by omega : h - 1 - i < h)]
  congr 2
  omega

theorem elemCount_eq {h w : Nat} {m : List (List ℚ)} (hm : IsRect h w m) :
    elemCount m = h * w := by
  unfold elemCount
  have hmap : m.map List.length = List.replicate h w := by
    apply List.ext_getElem (by simp [hm.1])
    intro i h1 h2
    simp only [List.getElem_map, List.getElem_replicate]
    exact hm.2 _ (List.getElem_mem (by simpa using h1))
  rw [hmap, List.sum_replicate, smul_eq_mul]

theorem flat_index_lt {h w j i : Nat} (hj : j < h) (hi : i < w) :
    (h - 1 - j) * w + i < h * w := by
  calc (h - 1 - j) * w + i < (h - 1 - j) * w + w := by omega
    _ = (h - 1 - j + 1) * w := by ring
    _ ≤ h * w := Nat.mul_le_mul_right w (by omega)

/-- C1: for every byte buffer of exactly `h * w * 2` bytes (default 480x640),
interpreted as little-endian unsigned 16-bit integers, the raw-frame load
step returns a grid with exactly `h * w` elements, each raw count widened to
floating point with no loss (every entry is the exact cast of a natural
count below 2^16), rotated 270 degrees, so the result has swapped dimensions
(`w` rows of `h` entries; 640x480 for a 480x640 sensor). -/
theorem C1_load_raw_frame_contract {h w : Nat} (buf : List Nat)
    (hh : 0 < h) (hw : 0 < w) (hlen : buf.length = h * w * 2)
    (hbytes : ∀ b ∈ buf, b < 256) :
    ∃ g, loadRawFrame h w buf = Except.ok g ∧
      g.length = w ∧ (∀ row ∈ g, row.length = h) ∧
      elemCount g = h * w ∧
      ∀ i j, i < w → j < h →
        (g.getD i []).getD j 0
            = ((decodeU16LE buf).getD ((h - 1 - j) * w + i) 0 : ℚ) ∧
          (decodeU16LE buf).getD ((h - 1 - j) * w + i) 0 < 65536 := by
  have hdlen : (decodeU16LE buf).length = h * w := by
    rw [decodeU16LE_length, hlen]; omega
  have hpre : IsRect h w (preRotationGrid h w buf) := preRotationGrid_rect hdlen
  have hrect : IsRect w h (rot270 (preRotationGrid h w buf)) := rot270_rect hpre hh hw
  refine ⟨rot270 (preRotationGrid h w buf), ?_, hrect.1, hrect.2, ?_, ?_⟩
  · unfold loadRawFrame
    rw [if_pos hdlen]
  · rw [elemCount_eq hrect]; ring
  · intro i j hi hj
    constructor
    · rw [rot270_getD hpre hh hw hi hj,
        preRotationGrid_getD hdlen (by omega : h - 1 - j < h) hi]
    · exact decodeU16LE_lt buf hbytes _
        (getD_mem 0 (by rw [hdlen]; exact flat_index_lt hj hi))

/-- Witness for C1 at a concrete 2x3 sensor and a concrete 12-byte buffer. -/
theorem C1_witness :
    0 < 2 ∧ 0 < 3 ∧
    (List.length [1, 0, 2, 0, 3, 0, 4, 0, 5, 0, 6, 0] = 2 * 3 * 2) ∧
    (∀ b ∈ [1, 0, 2, 0, 3, 0, 4, 0, 5, 0, 6, 0], b < 256) ∧
    ∃ g, loadRawFrame 2 3 [1, 0, 2, 0, 3, 0, 4, 0, 5, 0, 6, 0] = Except.ok g ∧
      g.length = 3 ∧ (∀ row ∈ g, row.length = 2) ∧
      elemCount g = 2 * 3 ∧
      ∀ i j, i < 3 → j < 2 →
        (g.getD i []).getD j 0
            = ((decodeU16LE [1, 0, 2, 0, 3, 0, 4, 0, 5, 0, 6, 0]).getD
                ((2 - 1 - j) * 3 + i) 0 : ℚ) ∧
          (decodeU16LE [1, 0, 2, 0, 3, 0, 4, 0, 5, 0, 6, 0]).getD
            ((2 - 1 - j) * 3 + i) 0 < 65536 :=
  ⟨by decide, by decide, by decide, by decide,
    C1_load_raw_frame_contract [1, 0, 2, 0, 3, 0, 4, 0, 5, 0, 6, 0]
      (by decide) (by decide) (by decide) (by decide)⟩

/-- C2 (counterexample): the claim "every buffer whose length is not exactly
`height*width*2` fails with FormatError" is false on the code: a buffer one
byte LONGER than `480*640*2` loads successfully, because `numpy.fromfile`
silently drops a trailing lone byte before the reshape. -/
theorem C2_counterexample :
    (List.replicate 614401 0).length ≠ 480 * 640 * 2 ∧
    ∃ g, load_raw_frame (List.replicate 614401 0) = Except.ok g := by
  constructor
  · rw [List.length_replicate]
    norm_num
  · refine ⟨rot270 (preRotationGrid 480 640 (List.replicate 614401 0)), ?_⟩
    unfold load_raw_frame loadRawFrame
    rw [if_pos]
    rw [decodeU16LE_length, List.length_replicate]

/-- C2 (amended): the raw-frame load step fails with FormatError exactly when
the number of complete little-endian 16-bit elements in the buffer, i.e.
`length / 2`, differs from `height*width`.  In particular a buffer one byte
short fails, but a buffer with one trailing extra byte is accepted (the odd
byte is dropped by `numpy.fromfile`). -/
theorem C2_format_error_iff (h w : Nat) (buf : List Nat) :
    loadRawFrame h w buf = Except.error LoadError.FormatError ↔
      buf.length / 2 ≠ h * w := by
  unfold loadRawFrame
  rw [decodeU16LE_length]
  by_cases hc : buf.length / 2 = h * w
  · simp [hc]
  · simp [hc]

theorem coe_eq_sum_range : ∀ l : List ℚ,
    (l : Multiset ℚ) = ∑ i in Finset.range l.length, {l.getD i 0}
  | [] => by simp
  | a :: l => by
    rw [List.length_cons, Finset.sum_range_succ']
    simp only [List.getD_cons_succ, List.getD_cons_zero]
    rw [← coe_eq_sum_range l, ← Multiset.cons_coe, ← Multiset.singleton_add, add_comm]

theorem coe_flatten_eq_sum_range : ∀ L : List (List ℚ),
    ((L.flatten : List ℚ) : Multiset ℚ)
      = ∑ i in Finset.range L.length, ((L.getD i [] : List ℚ) : Multiset ℚ)
  | [] => by simp
  | a :: L => by
    rw [List.flatten_cons, List.length_cons, Finset.sum_range_succ']
    simp only [List.getD_cons_succ, List.getD_cons_zero]
    rw [← coe_flatten_eq_sum_range L, ← Multiset.coe_add, add_comm]

theorem rot270_perm {h w : Nat} {m : List (List ℚ)} (hm : IsRect h w m)
    (hh : 0 < h) (hw : 0 < w) :
    (((rot270 m).flatten : List ℚ) : Multiset ℚ) = (m.flatten : Multiset ℚ) := by
  have hr : IsRect w h (rot270 m) := rot270_rect hm hh hw
  rw [coe_flatten_eq_sum_range, coe_flatten_eq_sum_range, hr.1, hm.1]
  calc ∑ i in Finset.range w, (((rot270 m).getD i [] : List ℚ) : Multiset ℚ)
      = ∑ i in Finset.range w, ∑ j in Finset.range h,
          ({((rot270 m).getD i []).getD j 0} : Multiset ℚ) := by
        apply Finset.sum_congr rfl
        intro i hi
        rw [coe_eq_sum_range,
          hr.2 _ (getD_mem [] (by rw [hr.1]; exact Finset.mem_range.mp hi))]
    _ = ∑ i in Finset.range w, ∑ j in Finset.range h,
          ({(m.getD (h - 1 - j) []).getD i 0} : Multiset ℚ) := by
        apply Finset.sum_congr rfl
        intro i hi
        apply Finset.sum_congr rfl
        intro j hj
        rw [rot270_getD hm hh hw (Finset.mem_range.mp hi) (Finset.mem_range.mp hj)]
    _ = ∑ j in Finset.range h, ∑ i in Finset.range w,
          ({(m.getD (h - 1 - j) []).getD i 0} : Multiset ℚ) := Finset.sum_comm
    _ = ∑ j in Finset.range h, ∑ i in Finset.range w,
          ({(m.getD j []).getD i 0} : Multiset ℚ) :=
        Finset.sum_range_reflect
          (fun j => ∑ i in Finset.range w, ({(m.getD j []).getD i 0} : Multiset ℚ)) h
    _ = ∑ j in Finset.range h, ((m.getD j [] : List ℚ) : Multiset ℚ) := by
        apply Finset.sum_congr rfl
        intro j hj
        rw [coe_eq_sum_range,
          hm.2 _ (getD_mem [] (by rw [hm.1]; exact Finset.mem_range.mp hj))]

/-- C5: for every valid decoded buffer, the 270-degree rotation applied at
load time is a bijection on the grid: re-rotating the loaded RawFrame by the
inverse angle (one 90-degree counterclockwise turn) recovers the original
pre-rotation grid, and the element multiset of the loaded frame equals that
of the pre-rotation grid. -/
theorem C5_rotation_bijection {h w : Nat} (buf : List Nat)
    (hh : 0 < h) (hw : 0 < w) (hlen : buf.length = h * w * 2) :
    ∃ g, loadRawFrame h w buf = Except.ok g ∧
      rot90ccw g = preRotationGrid h w buf ∧
      ((g.flatten : List ℚ) : Multiset ℚ)
        = ((preRotationGrid h w buf).flatten : Multiset ℚ) := by
  have hdlen : (decodeU16LE buf).length = h * w := by
    rw [decodeU16LE_length, hlen]; omega
  have hpre : IsRect h w (preRotationGrid h w buf) := preRotationGrid_rect hdlen
  refine ⟨rot270 (preRotationGrid h w buf), ?_, ?_, ?_⟩
  · unfold loadRawFrame
    rw [if_pos hdlen]
  · exact rot90ccw_rot270 hpre hh hw
  · exact rot270_perm hpre hh hw

/-- Witness for C5 at a concrete 2x3 sensor and a concrete 12-byte buffer. -/
theorem C5_witness :
    0 < 2 ∧ 0 < 3 ∧
    (List.length [1, 0, 2, 0, 3, 0, 4, 0, 5, 0, 6, 0] = 2 * 3 * 2) ∧
    ∃ g, loadRawFrame 2 3 [1, 0, 2, 0, 3, 0, 4, 0, 5, 0, 6, 0] = Except.ok g ∧
      rot90ccw g = preRotationGrid 2 3 [1, 0, 2, 0, 3, 0, 4, 0, 5, 0, 6, 0] ∧
      ((g.flatten : List ℚ) : Multiset ℚ)
        = ((preRotationGrid 2 3 [1, 0, 2, 0, 3, 0, 4, 0, 5, 0, 6, 0]).flatten
            : Multiset ℚ) :=
  ⟨by decide, by decide, by decide,
    C5_rotation_bijection [1, 0, 2, 0, 3, 0, 4, 0, 5, 0, 6, 0]
      (by decide) (by decide) (by decide)⟩

/-- Modelled from the spec: the scan metadata record consumed by
`Get_FLIR.rawData_to_temperature` (module `Get_FLIR` is imported by the
source but is not under src/).  The spec lists the calibration fields the
conversion requires: emissivity, reflected apparent temperature, atmospheric
temperature, object-to-camera distance and relative humidity; each is
optional in the parsed JSON metadata, and conversion fails closed when any
is absent. -/
structure ScanMetadata where
  emissivity : Option ℚ
  reflectedTemp : Option ℚ
  atmosphericTemp : Option ℚ
  distance : Option ℚ
  humidity : Option ℚ
deriving DecidableEq, Repr

/-- The fully-present calibration parameter record. -/
structure CalibParams where
  emissivity : ℚ
  reflectedTemp : ℚ
  atmosphericTemp : ℚ
  distance : ℚ
  humidity : ℚ
deriving DecidableEq, Repr

/-- Extraction of the required calibration fields; `none` when any required
field is absent from the metadata. -/
def extractCalib (md : ScanMetadata) : Option CalibParams :=
  match md.emissivity, md.reflectedTemp, md.atmosphericTemp, md.distance, md.humidity with
  | some e, some r, some a, some d, some hu => some ⟨e, r, a, d, hu⟩
  | _, _, _, _, _ => none

/-- Modelled from the spec: the sensor calibration gain selected by the scan
time (the missing `Get_FLIR` module selects date-dependent calibration
constants; the spec says their exact values must be obtained from the
reference implementation, so a single frozen placeholder set is used
here). -/
def calibGain (_scanTime : ℚ) : ℚ := 64

/-- Modelled from the spec: the atmospheric transmission factor of the
missing calibration module, a function of relative humidity and
object-to-camera distance, always in `(0, 1]`. -/
def atmTransmission (p : CalibParams) : ℚ :=
  1 / (1 + p.humidity ^ 2 + p.distance ^ 2)

/-- Modelled from the spec: the per-pixel transfer function of the missing
`Get_FLIR` calibration module.  The spec describes it as mapping a sensor
digital count to radiance and then to temperature, parameterized by
emissivity, reflected apparent temperature, atmospheric temperature,
relative humidity, object distance and sensor calibration constants, and
monotone in the count.  The observed radiance mixes the attenuated object
signal with atmospheric and reflected contributions, and the radiance is
mapped to a temperature through the frozen placeholder gain. -/
def transferFunction (p : CalibParams) (scanTime count : ℚ) : ℚ :=
  (atmTransmission p * count + (1 - atmTransmission p) * p.atmosphericTemp
    + (1 - p.emissivity) * p.reflectedTemp) / calibGain scanTime - 273

/-- Rectangularity check: every row has the length of the first row.  The
spec's `InvalidGeometryError` fires when the RawFrame dimensions are
inconsistent. -/
def isRectangularB (m : List (List ℚ)) : Bool :=
  m.all (fun row => row.length == (m.getD 0 []).length)

/-- Modelled from the spec: `Get_FLIR.rawData_to_temperature(raw_data,
scan_time, metadata)` (line 156 of the source; the module itself is not
under src/).  Fails closed with `MissingParameterError` when any required
calibration field is absent, with `InvalidGeometryError` when the frame
geometry is inconsistent, and otherwise applies the per-pixel transfer
function independently to every pixel. -/
def rawData_to_temperature (raw : List (List ℚ)) (scanTime : ℚ) (md : ScanMetadata) :
    Except ConvError (List (List ℚ)) :=
  match extractCalib md with
  | none => Except.error ConvError.MissingParameterError
  | some p =>
    if isRectangularB raw then
      Except.ok (raw.map (List.map (transferFunction p scanTime)))
    else
      Except.error ConvError.InvalidGeometryError

theorem mapGrid_length (f : ℚ → ℚ) (raw : List (List ℚ)) :
    (raw.map (List.map f)).length = raw.length := by simp

theorem mapGrid_row_length (f : ℚ → ℚ) (raw : List (List ℚ)) (i : Nat) :
    ((raw.map (List.map f)).getD i []).length = (raw.getD i []).length := by
  by_cases hi : i < raw.length
  · rw [List.getD_eq_getElem _ _ (by simpa using hi), List.getElem_map,
      List.length_map, List.getD_eq_getElem _ _ hi]
  · rw [List.getD_eq_default _ _ (by simpa using not_lt.mp hi),
      List.getD_eq_default _ _ (not_lt.mp hi)]

theorem mapGrid_entry (f : ℚ → ℚ) (raw : List (List ℚ)) {i j : Nat}
    (hi : i < raw.length) (hj : j < (raw.getD i []).length) :
    ((raw.map (List.map f)).getD i []).getD j 0 = f ((raw.getD i []).getD j 0) := by
  rw [List.getD_eq_getElem _ _ hi] at hj ⊢
  have h1 : (raw.map (List.map f)).getD i [] = List.map f raw[i] := by
    rw [List.getD_eq_getElem _ _ (by simpa using hi), List.getElem_map]
  rw [h1, List.getD_eq_getElem _ _ (by simpa using hj), List.getElem_map,
    List.getD_eq_getElem _ _ hj]

theorem rawData_eq_of_none {md : ScanMetadata} (hp : extractCalib md = none)
    (raw : List (List ℚ)) (t : ℚ) :
    rawData_to_temperature raw t md = Except.error ConvError.MissingParameterError := by
  unfold rawData_to_temperature
  rw [hp]

theorem rawData_eq_of_some {md : ScanMetadata} {p : CalibParams}
    (hp : extractCalib md = some p) (raw : List (List ℚ)) (t : ℚ) :
    rawData_to_temperature raw t md =
      if isRectangularB raw then
        Except.ok (raw.map (List.map (transferFunction p t)))
      else
        Except.error ConvError.InvalidGeometryError := by
  unfold rawData_to_temperature
  rw [hp]

/-- A concrete fully-populated metadata record used by witnesses. -/
def exampleMd : ScanMetadata := ⟨some 1, some 20, some 20, some 2, some 0⟩

/-- A concrete metadata record with the emissivity field absent. -/
def exampleMdMissing : ScanMetadata := ⟨none, some 20, some 20, some 2, some 0⟩

/-- C3: the raw-count-to-temperature conversion is deterministic: for every
pair of identical inputs (same RawFrame, same scan time, same
ScanMetadata), two invocations yield identical TemperatureGrid outputs; the
modelled conversion is a pure function of its three arguments with no other
state. -/
theorem C3_conversion_deterministic (r₁ r₂ : List (List ℚ)) (t₁ t₂ : ℚ)
    (m₁ m₂ : ScanMetadata) (hr : r₁ = r₂) (ht : t₁ = t₂) (hm : m₁ = m₂) :
    rawData_to_temperature r₁ t₁ m₁ = rawData_to_temperature r₂ t₂ m₂ := by
  subst hr; subst ht; subst hm; rfl

/-- Witness for C3 at a concrete frame, scan time, and metadata record. -/
theorem C3_witness :
    rawData_to_temperature [[(64 : ℚ)]] 0 exampleMd
      = rawData_to_temperature [[(64 : ℚ)]] 0 exampleMd :=
  C3_conversion_deterministic [[(64 : ℚ)]] [[(64 : ℚ)]] 0 0 exampleMd exampleMd
    rfl rfl rfl

/-- C4: for every ScanMetadata from which any required calibration field
(emissivity, reflected temperature, atmospheric temperature, distance,
humidity) is absent, the conversion fails closed with
`MissingParameterError` for every frame and scan time, producing no
TemperatureGrid. -/
theorem C4_missing_parameter (raw : List (List ℚ)) (t : ℚ) (md : ScanMetadata)
    (hmiss : md.emissivity = none ∨ md.reflectedTemp = none ∨
      md.atmosphericTemp = none ∨ md.distance = none ∨ md.humidity = none) :
    rawData_to_temperature raw t md = Except.error ConvError.MissingParameterError := by
  unfold rawData_to_temperature
  have hx : extractCalib md = none := by
    rcases md with ⟨e, r, a, d, hu⟩
    cases e <;> cases r <;> cases a <;> cases d <;> cases hu <;>
      simp_all [extractCalib]
  rw [hx]

/-- Witness for C4 at a concrete frame and a metadata record missing its
emissivity field. -/
theorem C4_witness :
    exampleMdMissing.emissivity = none ∧
    rawData_to_temperature [[(64 : ℚ)]] 0 exampleMdMissing
      = Except.error ConvError.MissingParameterError :=
  ⟨rfl, C4_missing_parameter [[(64 : ℚ)]] 0 exampleMdMissing (Or.inl rfl)⟩

/-- C6: whenever the conversion produces a TemperatureGrid, that grid has
exactly the dimensions of the input RawFrame (same row count, same length
row by row), and each output pixel is the transfer function - determined
only by the metadata-derived calibration parameters and the scan time -
applied to the corresponding input pixel alone. -/
theorem C6_same_dimensions_pointwise (raw : List (List ℚ)) (t : ℚ)
    (md : ScanMetadata) (tc : List (List ℚ))
    (hok : rawData_to_temperature raw t md = Except.ok tc) :
    tc.length = raw.length ∧
    (∀ i, (tc.getD i []).length = (raw.getD i []).length) ∧
    ∃ p, extractCalib md = some p ∧
      ∀ i j, i < raw.length → j < (raw.getD i []).length →
        (tc.getD i []).getD j 0 = transferFunction p t ((raw.getD i []).getD j 0) := by
  cases hp : extractCalib md with
  | none => rw [rawData_eq_of_none hp] at hok; exact absurd hok (by simp)
  | some p =>
    rw [rawData_eq_of_some hp] at hok
    by_cases hr : isRectangularB raw
    · rw [if_pos hr] at hok
      injection hok with hok2
      subst hok2
      exact ⟨mapGrid_length _ _, fun i => mapGrid_row_length _ _ _,
        p, rfl, fun i j hi hj => mapGrid_entry _ _ hi hj⟩
    · rw [if_neg hr] at hok; exact absurd hok (by simp)

/-- Witness for C6 at a concrete one-pixel frame and complete metadata. -/
theorem C6_witness :
    rawData_to_temperature [[(64 : ℚ)]] 0 exampleMd
        = Except.ok [[(-5451 : ℚ) / 20]] ∧
    ([[(-5451 : ℚ) / 20]] : List (List ℚ)).length
        = ([[(64 : ℚ)]] : List (List ℚ)).length ∧
    (∀ i, (([[(-5451 : ℚ) / 20]] : List (List ℚ)).getD i []).length
        = (([[(64 : ℚ)]] : List (List ℚ)).getD i []).length) ∧
    ∃ p, extractCalib exampleMd = some p ∧
      ∀ i j, i < ([[(64 : ℚ)]] : List (List ℚ)).length →
        j < (([[(64 : ℚ)]] : List (List ℚ)).getD i []).length →
        (([[(-5451 : ℚ) / 20]] : List (List ℚ)).getD i []).getD j 0
          = transferFunction p 0 ((([[(64 : ℚ)]] : List (List ℚ)).getD i []).getD j 0) := by
  have hok : rawData_to_temperature [[(64 : ℚ)]] 0 exampleMd
      = Except.ok [[(-5451 : ℚ) / 20]] := by
    simp [rawData_to_temperature, extractCalib, exampleMd, isRectangularB,
      transferFunction, atmTransmission, calibGain]
    norm_num
  exact ⟨hok, C6_same_dimensions_pointwise _ _ _ _ hok⟩

/-- C8: every invocation of the core conversion is atomic: it either
returns a grid computed in full (covering every row and every pixel of the
input frame) or returns an error, and never a partially populated
result. -/
theorem C8_atomic_result (raw : List (List ℚ)) (t : ℚ) (md : ScanMetadata) :
    (∃ tc, rawData_to_temperature raw t md = Except.ok tc ∧
      tc.length = raw.length ∧
      ∀ i, (tc.getD i []).length = (raw.getD i []).length) ∨
    (∃ e, rawData_to_temperature raw t md = Except.error e) := by
  cases hp : extractCalib md with
  | none => exact Or.inr ⟨_, rawData_eq_of_none hp raw t⟩
  | some p =>
    rw [rawData_eq_of_some hp]
    by_cases hr : isRectangularB raw
    · rw [if_pos hr]
      exact Or.inl ⟨_, rfl, mapGrid_length _ _, fun i => mapGrid_row_length _ _ _⟩
    · rw [if_neg hr]
      exact Or.inr ⟨_, rfl⟩

/-- C7: for every fixed setting of the calibration parameters and scan
time, the per-pixel raw-count-to-temperature transfer function is monotone:
increasing the raw digital count never decreases the computed
temperature. -/
theorem C7_transfer_monotone (p : CalibParams) (t : ℚ) (c₁ c₂ : ℚ)
    (hc : c₁ ≤ c₂) : transferFunction p t c₁ ≤ transferFunction p t c₂ := by
  unfold transferFunction calibGain
  have htau : (0 : ℚ) < atmTransmission p := by
    unfold atmTransmission
    positivity
  have hmul : atmTransmission p * c₁ ≤ atmTransmission p * c₂ :=
    mul_le_mul_of_nonneg_left hc htau.le
  linarith

/-- Witness for C7 at concrete calibration parameters and raw counts. -/
theorem C7_witness :
    (0 : ℚ) ≤ 64 ∧
    transferFunction ⟨1, 20, 20, 2, 0⟩ 0 0 ≤ transferFunction ⟨1, 20, 20, 2, 0⟩ 0 64 :=
  ⟨by norm_num, C7_transfer_monotone ⟨1, 20, 20, 2, 0⟩ 0 0 64 (by norm_num)⟩

/-- The raw-data load of the PNG branch (source lines 137-138):
`numpy.fromfile(bin_file, numpy.dtype(<u2)).reshape([480, 640])
.astype(float)` then `numpy.rot90(raw_data, 3)`, with the sensor dimensions
as parameters. -/
def pngBranchLoad (h w : Nat) (buf : List Nat) : Except LoadError (List (List ℚ)) :=
  if (decodeU16LE buf).length = h * w then
    Except.ok (rot270 ((reshapeRows h w (decodeU16LE buf)).map
      (List.map (fun n : Nat => (n : ℚ)))))
  else
    Except.error LoadError.FormatError

/-- The raw-data reload of the TIFF branch when the PNG step was skipped
(source lines 154-155, guarded by `skipped_png`): the same numpy pipeline
re-read from the same bin file. -/
def tiffBranchReload (h w : Nat) (buf : List Nat) : Except LoadError (List (List ℚ)) :=
  if (decodeU16LE buf).length = h * w then
    Except.ok (rot270 ((reshapeRows h w (decodeU16LE buf)).map
      (List.map (fun n : Nat => (n : ℚ)))))
  else
    Except.error LoadError.FormatError

/-- C9: the two raw-data load paths of `process_message` are equivalent:
the grid reloaded for the temperature/TIFF path when `skipped_png` holds is
identical to the grid the PNG path computes from the same bin file, so the
TemperatureGrid is independent of which branch loaded the data. -/
theorem C9_branch_equivalence (h w : Nat) (buf : List Nat) (t : ℚ)
    (md : ScanMetadata) :
    tiffBranchReload h w buf = pngBranchLoad h w buf ∧
    ∀ g₁ g₂, pngBranchLoad h w buf = Except.ok g₁ →
      tiffBranchReload h w buf = Except.ok g₂ →
      rawData_to_temperature g₁ t md = rawData_to_temperature g₂ t md := by
  have he : tiffBranchReload h w buf = pngBranchLoad h w buf := rfl
  refine ⟨he, ?_⟩
  intro g₁ g₂ h1 h2
  rw [he, h1] at h2
  injection h2 with h3
  rw [h3]

/-- Witness for C9 at a concrete buffer and metadata record. -/
theorem C9_witness :
    tiffBranchReload 2 3 [1, 0, 2, 0, 3, 0, 4, 0, 5, 0, 6, 0]
        = pngBranchLoad 2 3 [1, 0, 2, 0, 3, 0, 4, 0, 5, 0, 6, 0] ∧
    rawData_to_temperature [[4, 1], [5, 2], [6, 3]] 0 exampleMd
        = rawData_to_temperature [[4, 1], [5, 2], [6, 3]] 0 exampleMd :=
  ⟨(C9_branch_equivalence 2 3 [1, 0, 2, 0, 3, 0, 4, 0, 5, 0, 6, 0] 0 exampleMd).1,
    (C9_branch_equivalence 2 3 [1, 0, 2, 0, 3, 0, 4, 0, 5, 0, 6, 0] 0 exampleMd).2
      [[4, 1], [5, 2], [6, 3]] [[4, 1], [5, 2], [6, 3]] (by rfl) (by rfl)⟩

/-- One entry of `resource[files]`: the optional `filename` key and the
`filepath`. -/
structure FileEntry where
  filename : Option String
  filepath : String
deriving DecidableEq, Repr

/-- The outcome type of `check_message` (`pyclowder.utils.CheckMessage`);
only the two values the source uses are modelled. -/
inductive CheckMessage where
  | download
  | ignore
deriving DecidableEq, Repr

/-- The external facts `check_message` consults: `is_latest_file`, the
existence of the PNG/TIFF outputs, the overwrite flag, and the two remote
metadata probes used when no `_metadata.json` file is present. -/
structure CheckEnv where
  isLatest : Bool
  pngExists : Bool
  tiffExists : Bool
  forceOverwrite : Bool
  hasExtractorMd : Bool
  hasTerrarefMd : Bool
deriving DecidableEq, Repr

/-- One iteration of the `for f in resource[files]` loop of `check_message`
(source lines 71-75): later matches overwrite earlier ones, and a file can
set at most one of the two slots. -/
def scanStep (acc : Option String × Option String) (f : FileEntry) :
    Option String × Option String :=
  match f.filename with
  | some name =>
    if name.endsWith "_ir.bin" then (some f.filepath, acc.2)
    else if name.endsWith "_metadata.json" then (acc.1, some f.filepath)
    else acc
  | none => acc

/-- The full file scan of `check_message`: `(found_ir, found_md)`. -/
def scanFiles (files : List FileEntry) : Option String × Option String :=
  files.foldl scanStep (none, none)

/-- `FlirBin2JpgTiff.check_message` (source lines 64-99). -/
def check_message (env : CheckEnv) (files : List FileEntry) : CheckMessage :=
  if !env.isLatest then CheckMessage.ignore
  else
    match (scanFiles files).1 with
    | some _ =>
      if env.pngExists && env.tiffExists && !env.forceOverwrite then
        CheckMessage.ignore
      else
        match (scanFiles files).2 with
        | none =>
          if env.hasExtractorMd && !env.forceOverwrite then CheckMessage.ignore
          else if env.hasTerrarefMd then CheckMessage.download
          else CheckMessage.ignore
        | some _ => CheckMessage.download
    | none => CheckMessage.ignore

theorem scanStep_fst_no_ir (acc : Option String × Option String) (f : FileEntry)
    (hf : ∀ name, f.filename = some name → name.endsWith "_ir.bin" = false) :
    (scanStep acc f).1 = acc.1 := by
  cases hn : f.filename with
  | none => simp [scanStep, hn]
  | some name =>
    simp only [scanStep, hn]
    rw [hf name hn]
    by_cases hmd : name.endsWith "_metadata.json"
    · simp [hmd]
    · simp [hmd]

theorem foldl_fst_no_ir : ∀ (files : List FileEntry) (acc : Option String × Option String),
    (∀ f ∈ files, ∀ name, f.filename = some name → name.endsWith "_ir.bin" = false) →
    (files.foldl scanStep acc).1 = acc.1
  | [], _, _ => rfl
  | f :: fs, acc, hno => by
    rw [List.foldl_cons,
      foldl_fst_no_ir fs _ (fun g hg => hno g (by simp [hg]))]
    exact scanStep_fst_no_ir acc f (hno f (by simp))

theorem foldl_fst_some : ∀ (files : List FileEntry) (acc : Option String × Option String)
    (p : String), (files.foldl scanStep acc).1 = some p →
    acc.1 = some p ∨
      ∃ f ∈ files, ∃ name, f.filename = some name ∧ name.endsWith "_ir.bin" = true
  | [], _, _, hp => Or.inl hp
  | f :: fs, acc, p, hp => by
    rw [List.foldl_cons] at hp
    rcases foldl_fst_some fs (scanStep acc f) p hp with h1 | h1
    · cases hn : f.filename with
      | none => simp only [scanStep, hn] at h1; exact Or.inl h1
      | some name =>
        simp only [scanStep, hn] at h1
        by_cases hir : name.endsWith "_ir.bin"
        · exact Or.inr ⟨f, by simp, name, hn, hir⟩
        · rw [if_neg (by simp [hir])] at h1
          by_cases hmd : name.endsWith "_metadata.json"
          · rw [if_pos (by simp [hmd])] at h1; exact Or.inl h1
          · rw [if_neg (by simp [hmd])] at h1; exact Or.inl h1
    · obtain ⟨g, hg, rest⟩ := h1
      exact Or.inr ⟨g, by simp [hg], rest⟩

/-- C10: `check_message` returns download only when the file list contains
a filename ending in `_ir.bin`; for every resource with no such file it
returns ignore; and when both PNG and TIFF outputs already exist and
`force_overwrite` is off it returns ignore. -/
theorem C10_check_message_spec (env : CheckEnv) (files : List FileEntry) :
    (check_message env files = CheckMessage.download →
      ∃ f ∈ files, ∃ name, f.filename = some name ∧
        name.endsWith "_ir.bin" = true) ∧
    ((∀ f ∈ files, ∀ name, f.filename = some name →
        name.endsWith "_ir.bin" = false) →
      check_message env files = CheckMessage.ignore) ∧
    (env.pngExists = true → env.tiffExists = true → env.forceOverwrite = false →
      check_message env files = CheckMessage.ignore) := by
  refine ⟨?_, ?_, ?_⟩
  · intro hd
    by_cases hl : env.isLatest
    · unfold check_message at hd
      simp only [hl, Bool.not_true, Bool.false_eq_true, if_false] at hd
      cases hs : (scanFiles files).1 with
      | none => rw [hs] at hd; exact absurd hd (by simp)
      | some p =>
        rcases foldl_fst_some files (none, none) p hs with h1 | h1
        · exact absurd h1 (by simp)
        · exact h1
    · unfold check_message at hd
      simp only [Bool.not_eq_true] at hl
      simp [hl] at hd
  · intro hno
    have hfst : (scanFiles files).1 = none := foldl_fst_no_ir files (none, none) hno
    by_cases hl : env.isLatest
    · simp [check_message, hl, hfst]
    · simp only [Bool.not_eq_true] at hl
      simp [check_message, hl]
  · intro hp ht hf
    by_cases hl : env.isLatest
    · cases hs : (scanFiles files).1 with
      | none => simp [check_message, hl, hs]
      | some p => simp [check_message, hl, hs, hp, ht, hf]
    · simp only [Bool.not_eq_true] at hl
      simp [check_message, hl]

/-- Witness for C10: a dataset whose outputs both exist, with overwrite
off, is ignored. -/
theorem C10_witness :
    check_message ⟨true, true, true, false, false, false⟩
        [⟨some "scan_ir.bin", "raw/scan_ir.bin"⟩] = CheckMessage.ignore :=
  (C10_check_message_spec ⟨true, true, true, false, false, false⟩
    [⟨some "scan_ir.bin", "raw/scan_ir.bin"⟩]).2.2 rfl rfl rfl

end Flir2Tif
